import Mathlib

/-!
Verification of the MCP Go SDK server core (SetiabudiResearch/mcp-go-sdk).

This file gives a shallow embedding, in Lean 4, of the parts of the SDK
that carry the protocol logic:

* the dynamic invocation engine for tools (`pkg/mcp/server/handlers.go`),
* the resource pattern matcher (`pkg/mcp/server/resource.go`),
* the prompt renderer (`pkg/mcp/server/prompt.go`),
* the session state machine and the capability registry
  (`server.go`: `Session.HandleRequest`, `Server.AddTool` and friends),
* the parse-error replies of the stdio / SSE / WebSocket transports
  (`pkg/mcp/transport/stdio.go`, `sse.go`, `websocket.go`).

Go values that flow through `reflect` are modelled by the inductive
`GoVal`, with the dynamic type `GoTy` read off by `typeOf`.  The model
covers the Go kinds exercised by the registered handlers considered here
(`int`, `string`, `bool`, and `[]protocol.PromptMessage` for prompt
handler results); the float and uint branches of `convertValue` are not
needed by any theorem below and are not modelled.  `reflect.Value.Call`
is modelled by `callGoFunc`, including the panic Go raises when an
argument's dynamic type differs from the declared parameter type.
-/

namespace MCPGoSDK

/-- Role/text pair, modelling `protocol.PromptMessage` with a text content
    payload (`protocol.TextContent.Text`). -/
structure PromptMsg where
  role : String
  text : String
  deriving DecidableEq, Repr

/-- Dynamic types of the Go values the registered handlers exchange. -/
inductive GoTy where
  | tyInt
  | tyStr
  | tyBool
  | tyMsgs
  deriving DecidableEq, Repr

/-- Go runtime values, as seen through `reflect`. -/
inductive GoVal where
  | vInt (n : Int)
  | vStr (s : String)
  | vBool (b : Bool)
  | vMsgs (l : List PromptMsg)
  deriving DecidableEq, Repr

/-- Dynamic type of a value (`reflect.TypeOf`). -/
def typeOf : GoVal → GoTy
  | .vInt _ => .tyInt
  | .vStr _ => .tyStr
  | .vBool _ => .tyBool
  | .vMsgs _ => .tyMsgs

/-- Rendering of a Go type by the `%v` verb / `reflect.Type.String`. -/
def tyName : GoTy → String
  | .tyInt => "int"
  | .tyStr => "string"
  | .tyBool => "bool"
  | .tyMsgs => "[]protocol.PromptMessage"

/-- Zero value of a type (`reflect.Zero`). -/
def zeroVal : GoTy → GoVal
  | .tyInt => .vInt 0
  | .tyStr => .vStr ""
  | .tyBool => .vBool false
  | .tyMsgs => .vMsgs []

/-- Result of `reflect.Value.String()`: the string itself for string
    kinds, and the `"<T Value>"` placeholder for every other kind
    (this is what `handleCallTool` calls on `results[0]`). -/
def goValString : GoVal → String
  | .vStr s => s
  | v => "<" ++ tyName (typeOf v) ++ " Value>"

/-- Value(s) produced by one invocation of a registered handler:
    Go handlers return either a single value or a (value, error) pair,
    the error being nil or carrying a message. -/
inductive HandlerRet where
  | one (v : GoVal)
  | two (v : GoVal) (err : Option String)

/-- A registered handler: its declared parameter types (the Go function
    type seen by `reflect.TypeOf(handler)`) and its behaviour on
    well-typed argument lists. -/
structure Handler where
  params : List GoTy
  body : List GoVal → HandlerRet

/-- Outcome of a server-side operation: a value, a structured Go error,
    or a runtime panic (process abort). -/
inductive POutcome (α : Type) where
  | ok (a : α)
  | err (e : String)
  | panic (msg : String)
  deriving DecidableEq

/-- Map over the value of an outcome. -/
def POutcome.map {α β : Type} (f : α → β) : POutcome α → POutcome β
  | .ok a => .ok (f a)
  | .err e => .err e
  | .panic m => .panic m

/-- First argument whose dynamic type differs from the declared parameter
    type, scanning left to right as `reflect.Value.Call` does. -/
def firstMismatch : List GoTy → List GoVal → Option (GoTy × GoVal)
  | [], _ => none
  | _, [] => none
  | t :: ts, v :: vs => if typeOf v = t then firstMismatch ts vs else some (t, v)

/-- Model of `reflect.ValueOf(handler).Call(args)`: Go panics when the
    argument count or an argument's dynamic type does not match the
    function type; otherwise the function runs. -/
def callGoFunc (h : Handler) (args : List GoVal) : POutcome HandlerRet :=
  if args.length ≠ h.params.length then
    .panic "reflect: Call with wrong number of arguments"
  else
    match firstMismatch h.params args with
    | some (t, v) =>
        .panic ("reflect: Call using " ++ tyName (typeOf v) ++ " as type " ++ tyName t)
    | none => .ok (h.body args)

/-- Association-list lookup, modelling Go map indexing (keys unique). -/
def alookup {α : Type} (key : String) : List (String × α) → Option α
  | [] => none
  | (k, v) :: rest => if k = key then some v else alookup key rest

/-! ## Capability registry (`server.go`) -/

/-- `server.Tool`. -/
structure Tool where
  handler : Handler
  description : String
  isAsync : Bool

/-- `server.Resource`. -/
structure Resource where
  handler : Handler
  description : String
  pattern : String

/-- `server.Prompt`. -/
structure Prompt where
  handler : Handler
  description : String

/-- `protocol.ServerCapabilities`: presence of each capability section
    (`NewServer` installs all four sections). -/
structure ServerCapabilities where
  tools : Bool
  resources : Bool
  prompts : Bool
  logging : Bool
  deriving DecidableEq, Repr

/-- `protocol.ClientCapabilities` (presence of each optional section). -/
structure ClientCapabilities where
  sampling : Bool
  roots : Bool
  deriving DecidableEq, Repr

/-- `protocol.Implementation`: name and version of an MCP implementation. -/
structure Impl where
  name : String
  version : String
  deriving DecidableEq, Repr

/-- `protocol.LatestProtocolVersion`. -/
def LatestProtocolVersion : String := "2024-11-05"

/-- `server.Server`: the three name-keyed registries plus identity.
    Go maps are modelled as association lists with unique keys; map
    iteration order (unspecified in Go) is modelled as list order, which
    no theorem below depends on. -/
structure Server where
  name : String
  capabilities : ServerCapabilities
  info : Impl
  tools : List (String × Tool)
  resources : List (String × Resource)
  prompts : List (String × Prompt)

/-- `server.NewServer` without options: empty registries, all four
    capability sections installed, info from the server name and the
    latest protocol version. -/
def NewServer (name : String) : Server :=
  { name := name
    capabilities := { tools := true, resources := true, prompts := true, logging := true }
    info := { name := name, version := LatestProtocolVersion }
    tools := []
    resources := []
    prompts := [] }

/-- `Server.AddTool`: fails (leaving the registry untouched) when the
    name is already registered, otherwise inserts.  The returned pair is
    (resulting server, error-or-nil). -/
def addTool (s : Server) (name : String) (h : Handler) (description : String) :
    Server × Option String :=
  match alookup name s.tools with
  | some _ => (s, some ("tool " ++ name ++ " already exists"))
  | none =>
      ({ s with tools := s.tools ++ [(name, { handler := h, description := description, isAsync := false })] },
       none)

/-- `Server.AddAsyncTool`: as `addTool` but marks the tool async. -/
def addAsyncTool (s : Server) (name : String) (h : Handler) (description : String) :
    Server × Option String :=
  match alookup name s.tools with
  | some _ => (s, some ("tool " ++ name ++ " already exists"))
  | none =>
      ({ s with tools := s.tools ++ [(name, { handler := h, description := description, isAsync := true })] },
       none)

/-- `Server.AddResource`: duplicate pattern fails, registry untouched. -/
def addResource (s : Server) (pattern : String) (h : Handler) (description : String) :
    Server × Option String :=
  match alookup pattern s.resources with
  | some _ => (s, some ("resource " ++ pattern ++ " already exists"))
  | none =>
      ({ s with resources := s.resources ++ [(pattern, { handler := h, description := description, pattern := pattern })] },
       none)

/-- `Server.AddPrompt`: duplicate name fails, registry untouched. -/
def addPrompt (s : Server) (name : String) (h : Handler) (description : String) :
    Server × Option String :=
  match alookup name s.prompts with
  | some _ => (s, some ("prompt " ++ name ++ " already exists"))
  | none =>
      ({ s with prompts := s.prompts ++ [(name, { handler := h, description := description })] },
       none)

/-! ## Wire-value coercion (`convertValue`, resource.go lines 140-176)

`convertValue` converts an extracted string to the target parameter
type.  Integers and booleans go through `fmt.Sscanf` with `%d` / `%t`:
`%d` skips leading white space, accepts an optional sign and a nonempty
digit run, and ignores trailing input; `%t` accepts the
`strconv.ParseBool` literals.  The exact text of the scan error is
immaterial to every theorem below and is abstracted to a fixed
message per kind. -/

/-- Longest leading digit run. -/
def takeDigits : List Char → List Char
  | [] => []
  | c :: rest => if c.isDigit then c :: takeDigits rest else []

/-- Numeric value of a digit run. -/
def digitsToInt (ds : List Char) : Int :=
  ds.foldl (fun acc c => acc * 10 + Int.ofNat (c.toNat - Char.toNat '0')) 0

/-- `fmt.Sscanf(value, "%d", &i)`: optional leading white space and sign,
    at least one digit; trailing input is ignored by `Sscanf`. -/
def sscanInt (cs : List Char) : Option Int :=
  let cs1 := cs.dropWhile (fun c => c = ' ' || c = '\t' || c = '\n')
  match cs1 with
  | '-' :: rest => if (takeDigits rest).isEmpty then none else some (-(digitsToInt (takeDigits rest)))
  | '+' :: rest => if (takeDigits rest).isEmpty then none else some (digitsToInt (takeDigits rest))
  | _ => if (takeDigits cs1).isEmpty then none else some (digitsToInt (takeDigits cs1))

/-- `fmt.Sscanf(value, "%t", &b)`: the `strconv.ParseBool` literals. -/
def sscanBool (s : String) : Option Bool :=
  if s = "1" || s = "t" || s = "T" || s = "true" || s = "TRUE" || s = "True" then some true
  else if s = "0" || s = "f" || s = "F" || s = "false" || s = "FALSE" || s = "False" then some false
  else none

/-- `convertValue(value, target)`: string targets take the value
    unchanged, int and bool targets scan it, any other target kind hits
    the `default` branch (`unsupported type`). -/
def convertValue (value : String) (ty : GoTy) : Except String GoVal :=
  match ty with
  | .tyStr => .ok (.vStr value)
  | .tyInt =>
      match sscanInt value.data with
      | some n => .ok (.vInt n)
      | none => .error "expected integer"
  | .tyBool =>
      match sscanBool value with
      | some b => .ok (.vBool b)
      | none => .error "expected boolean"
  | .tyMsgs => .error ("unsupported type: " ++ tyName .tyMsgs)

/-! ## Dynamic tool invocation (`handleCallTool`, handlers.go lines 36-104) -/

/-- `protocol.CallToolRequestParams`: tool name and the wire argument
    bag (`nil` map modelled as `none`). -/
structure CallToolParams where
  name : String
  arguments : Option (List (String × GoVal))

/-- One item of `CallToolResult.Content`: the error branch appends a
    `protocol.TextContent` while the success branches append the bare Go
    string produced by `results[0].String()`. -/
inductive ContentItem where
  | textContent (text : String)
  | plainString (s : String)
  deriving DecidableEq, Repr

/-- `protocol.CallToolResult`. -/
structure CallToolResult where
  content : List ContentItem
  isError : Bool
  deriving DecidableEq, Repr

/-- Argument binding loop of `handleCallTool` (lines 53-72): the i-th
    declared parameter takes the wire value stored under key `"argN"`
    verbatim — `paramValue = argValue` performs no coercion — a missing
    key fails, and a `nil` arguments map fails once the loop runs at
    least one iteration. -/
def bindToolArgsFrom (i : Nat) :
    List GoTy → Option (List (String × GoVal)) → Except String (List GoVal)
  | [], _ => .ok []
  | _ :: _, none => .error "arguments map is nil"
  | _ :: rest, some m =>
      match alookup ("arg" ++ toString i) m with
      | some v => (bindToolArgsFrom (i + 1) rest (some m)).map (fun vs => v :: vs)
      | none => .error ("missing argument: arg" ++ toString i)

/-- Wire-argument binding for a tool handler, starting at parameter 0. -/
def bindToolArgs (tys : List GoTy) (args : Option (List (String × GoVal))) :
    Except String (List GoVal) :=
  bindToolArgsFrom 0 tys args

/-- Result processing of `handleCallTool` (lines 79-97): a non-nil
    second result marks the payload as a tool-level error carrying the
    error text; otherwise the first result is rendered by
    `reflect.Value.String()` and wrapped unflagged. -/
def processToolResults : HandlerRet → CallToolResult
  | .two _ (some e) => { content := [.textContent e], isError := true }
  | .two v none => { content := [.plainString (goValString v)], isError := false }
  | .one v => { content := [.plainString (goValString v)], isError := false }

/-- `handleCallTool` after params decoding: look the tool up, bind the
    wire arguments positionally (no coercion), invoke the handler
    through `reflect.Call`, and package the results. -/
def handleCallTool (srv : Server) (p : CallToolParams) : POutcome CallToolResult :=
  match alookup p.name srv.tools with
  | none => .err ("tool not found: " ++ p.name)
  | some tool =>
      match bindToolArgs tool.handler.params p.arguments with
      | .error e => .err e
      | .ok args =>
          match callGoFunc tool.handler args with
          | .panic m => .panic m
          | .err e => .err e
          | .ok ret => .ok (processToolResults ret)

/-! ## Resource pattern matcher (`resource.go`)

`parseResourcePattern` replaces every `\x7bname\x7d` placeholder of the
pattern with the regex group `([^/]+)` and anchors the result with `^`
and `$`.  The compiled regex is modelled as a list of `PatItem`s —
literal runs and named captures — and matching follows Go's
leftmost-first semantics with a greedy `+`: a capture takes the longest
nonempty run of non-`/` characters that lets the rest of the pattern
match.  Literal runs are matched as exact text, which coincides with the
regex behaviour for every pattern whose literal text contains no regex
metacharacter (true of all patterns considered below). -/

/-- One item of a compiled resource pattern. -/
inductive PatItem where
  | lit (s : String)
  | cap (name : String)
  deriving DecidableEq, Repr

/-- Name of a capture item. -/
def capName : PatItem → Option String
  | .lit _ => none
  | .cap n => some n

/-- Scan forward from an opening brace for the closing brace, requiring
    a nonempty name (the source regex is `\x5c\x7b([^\x7d]+)\x5c\x7d`). -/
def braceSplit : List Char → List Char → Option (List Char × List Char)
  | _, [] => none
  | acc, '\x7d' :: rest => if acc.isEmpty then none else some (acc.reverse, rest)
  | acc, c :: rest => braceSplit (c :: acc) rest

/-- Emit the pending literal run, if nonempty. -/
def flushLit (acc : List Char) : List PatItem :=
  if acc.isEmpty then [] else [PatItem.lit (String.mk acc.reverse)]

/-- Pattern scanner: fuel-indexed so the recursion is structural; every
    step consumes at least one input character, so fuel
    `length + 1` never runs out. -/
def splitGo : Nat → List Char → List Char → List PatItem
  | 0, acc, _ => flushLit acc
  | _ + 1, acc, [] => flushLit acc
  | f + 1, acc, '\x7b' :: rest =>
      match braceSplit [] rest with
      | some (name, rem) => flushLit acc ++ PatItem.cap (String.mk name) :: splitGo f [] rem
      | none => splitGo f ('\x7b' :: acc) rest
  | f + 1, acc, c :: rest => splitGo f (c :: acc) rest

/-- Split a pattern into literal runs and `\x7bname\x7d` captures, in
    left-to-right order. -/
def splitPattern (pattern : String) : List PatItem :=
  splitGo (pattern.length + 1) [] pattern.data

/-- Length of the longest leading run of non-`/` characters. -/
def nonSlashRun : List Char → Nat
  | [] => 0
  | c :: rest => if c = '/' then 0 else nonSlashRun rest + 1

/-- State of the backtracking matcher: either dispatching on the next
    pattern item, or trying capture lengths `k, k-1, …, 1` for a
    pending `([^/]+)` group (greedy: longest first). -/
inductive PMState where
  | run (ps : List PatItem) (cs : List Char)
  | cap (ps : List PatItem) (cs : List Char) (k : Nat)

/-- Fuel-indexed anchored matcher returning the captured substrings. -/
def pmF : Nat → PMState → Option (List String)
  | 0, _ => none
  | _ + 1, .run [] cs => if cs.isEmpty then some [] else none
  | f + 1, .run (.lit s :: ps) cs =>
      if s.data.isPrefixOf cs then pmF f (.run ps (cs.drop s.data.length)) else none
  | f + 1, .run (.cap _ :: ps) cs => pmF f (.cap ps cs (nonSlashRun cs))
  | _ + 1, .cap _ _ 0 => none
  | f + 1, .cap ps cs (k + 1) =>
      match pmF f (.run ps (cs.drop (k + 1))) with
      | some caps => some (String.mk (cs.take (k + 1)) :: caps)
      | none => pmF f (.cap ps cs k)

/-- Anchored match of a compiled pattern against a string
    (`regex.FindStringSubmatch` with the `^…$` anchors of
    `parseResourcePattern`).  The fuel strictly bounds the number of
    backtracking steps possible over the given pattern and subject. -/
def patMatch (ps : List PatItem) (cs : List Char) : Option (List String) :=
  pmF ((cs.length + 2) ^ (ps.length + 2)) (.run ps cs)

/-- Compiled resource pattern (`resourcePattern` struct). -/
structure ResourcePatternM where
  pattern : String
  items : List PatItem
  paramNames : List String
  paramTypes : List GoTy

/-- `parseResourcePattern` (resource.go lines 21-64): collect the
    placeholders in order, fail when the handler declares fewer
    parameters than there are placeholders, and record the first
    placeholder-count parameter types. -/
def parseResourcePattern (pattern : String) (h : Handler) : Except String ResourcePatternM :=
  let items := splitPattern pattern
  let names := items.filterMap capName
  if h.params.length < names.length then
    .error ("not enough parameters in handler for pattern " ++ pattern)
  else
    .ok { pattern := pattern, items := items, paramNames := names,
          paramTypes := h.params.take names.length }

/-! ## URL parsing (`net/url.Parse`, as used by `matchResource`)

`matchResource` matches the compiled regex against
`url.Parse(uri).Path` — only the path component.  The model below
computes that component for URIs of the shapes exercised here:
`scheme://host/path` (path starts at the slash after the authority),
`scheme:/rooted/path`, other opaque `scheme:rest` forms (empty path),
and scheme-less strings (the whole string is the path).  Query strings,
fragments, user info and percent escapes do not occur in any input
considered and are not modelled. -/

/-- Characters legal in a scheme after the leading letter. -/
def isSchemeChar (c : Char) : Bool :=
  c.isAlphanum || c = '+' || c = '-' || c = '.'

/-- A valid scheme: nonempty, letter first. -/
def validScheme : List Char → Bool
  | [] => false
  | c :: rest => c.isAlpha && rest.all isSchemeChar

/-- Split off a leading `scheme:`; a `/` before any `:` means there is
    no scheme. -/
def schemeSplitGo : List Char → List Char → Option (List Char)
  | _, [] => none
  | acc, ':' :: rest => if validScheme acc.reverse then some rest else none
  | _, '/' :: _ => none
  | acc, c :: rest => schemeSplitGo (c :: acc) rest

/-- Path component assigned by `url.Parse` for the URI shapes above. -/
def urlParsePath (uri : String) : String :=
  match schemeSplitGo [] uri.data with
  | none => uri
  | some rest =>
      match rest with
      | '/' :: '/' :: tail => String.mk (tail.dropWhile (fun c => c ≠ '/'))
      | '/' :: _ => String.mk rest
      | _ => ""

/-! ## Resource matching and reading (`matchResource`, `readResource`) -/

/-- Parameter extraction of `matchResource` (lines 88-97): each captured
    substring is converted to the corresponding parameter type and
    stored under the placeholder's *name*; a conversion failure aborts
    the whole match with an error.  The final catch-all is unreachable:
    a successful match yields exactly one capture per placeholder. -/
def extractParams : List String → List String → List GoTy →
    Except String (List (String × GoVal))
  | [], _, _ => .ok []
  | name :: names, cap :: caps, ty :: tys =>
      (match convertValue cap ty with
       | .error e => .error ("invalid parameter " ++ name ++ ": " ++ e)
       | .ok v => (extractParams names caps tys).map (fun ps => (name, v) :: ps))
  | _ :: _, _, _ => .error "internal: capture count mismatch"

/-- Iteration of `matchResource` over the registered resources: compile
    each pattern (skipping ones that fail to compile), match the
    compiled regex against the URI's *path component*, and extract
    parameters from the first structural match. -/
def matchResourceGo (uri : String) (path : List Char) :
    List (String × Resource) → Except String (Resource × List (String × GoVal))
  | [] => .error ("no matching resource found for " ++ uri)
  | (pattern, res) :: rest =>
      match parseResourcePattern pattern res.handler with
      | .error _ => matchResourceGo uri path rest
      | .ok rp =>
          match patMatch rp.items path with
          | none => matchResourceGo uri path rest
          | some caps =>
              match extractParams rp.paramNames caps rp.paramTypes with
              | .error e => .error e
              | .ok ps => .ok (res, ps)

/-- `Server.matchResource` (resource.go lines 67-103).  `url.Parse`
    failures (control characters in the URI) are outside the modelled
    input space, so the `invalid URI` branch does not appear. -/
def matchResource (srv : Server) (uri : String) :
    Except String (Resource × List (String × GoVal)) :=
  matchResourceGo uri (urlParsePath uri).data srv.resources

/-- Parameters only, for statements that do not inspect the resource. -/
def matchResourceParams (srv : Server) (uri : String) :
    Except String (List (String × GoVal)) :=
  (matchResource srv uri).map (fun r => r.2)

/-- Argument construction of `readResource` (resource.go lines 111-120):
    the i-th handler argument is the params-map entry under key
    `"paramN"` when present, and `reflect.Zero(paramType)` otherwise.
    Note the key: `readResource` looks up `"paramN"`, not the
    placeholder names under which `matchResource` stored the captures. -/
def buildResourceArgs (i : Nat) (tys : List GoTy) (ps : List (String × GoVal)) : List GoVal :=
  match tys with
  | [] => []
  | ty :: rest =>
      (match alookup ("param" ++ toString i) ps with
       | some v => v
       | none => zeroVal ty) :: buildResourceArgs (i + 1) rest ps

/-- `Server.readResource` (resource.go lines 106-138): build the
    argument vector, invoke the handler through `reflect.Call`; a
    non-nil second result is returned as a genuine error, otherwise the
    single content item is the first result itself
    (`results[0].Interface()`). -/
def readResource (res : Resource) (ps : List (String × GoVal)) : POutcome (List GoVal) :=
  match callGoFunc res.handler (buildResourceArgs 0 res.handler.params ps) with
  | .panic m => .panic m
  | .err e => .err e
  | .ok (.two _ (some e)) => .err e
  | .ok (.two v none) => .ok [v]
  | .ok (.one v) => .ok [v]

/-- `handleReadResource` after params decoding (handlers.go lines
    131-158): match, then read, wrapping each failure. -/
def handleReadResource (srv : Server) (uri : String) : POutcome (List GoVal) :=
  match matchResource srv uri with
  | .error e => .err ("failed to match resource: " ++ e)
  | .ok (res, ps) =>
      match readResource res ps with
      | .panic m => .panic m
      | .err e => .err ("failed to read resource: " ++ e)
      | .ok contents => .ok contents

/-! ## Prompt templates and rendering (`prompt.go`) -/

/-- `protocol.PromptArgument` (required is a `*bool` pointing at true). -/
structure PromptArgument where
  name : String
  description : String
  required : Bool
  deriving DecidableEq, Repr

/-- Argument-descriptor loop of `parsePromptTemplate` (prompt.go lines
    30-39): the i-th handler parameter is advertised under the synthetic
    name `"argN"`, described by its Go type, and always marked
    required. -/
def promptArgsFrom (i : Nat) : List GoTy → List PromptArgument
  | [] => []
  | ty :: rest =>
      { name := "arg" ++ toString i
        description := "Argument of type " ++ tyName ty
        required := true } :: promptArgsFrom (i + 1) rest

/-- Argument descriptors produced by `parsePromptTemplate` for a
    handler. -/
def parsePromptTemplateArgs (h : Handler) : List PromptArgument :=
  promptArgsFrom 0 h.params

/-- Argument binding loop of `renderPrompt` (prompt.go lines 54-68): a
    present `"argN"` entry is converted to the parameter type (a failed
    conversion aborts), an absent entry silently becomes
    `reflect.Zero(paramType)`. -/
def renderPromptBindFrom (i : Nat) :
    List GoTy → List (String × String) → Except String (List GoVal)
  | [], _ => .ok []
  | ty :: rest, args =>
      match alookup ("arg" ++ toString i) args with
      | some s =>
          (match convertValue s ty with
           | .error e => .error ("invalid argument arg" ++ toString i ++ ": " ++ e)
           | .ok v => (renderPromptBindFrom (i + 1) rest args).map (fun vs => v :: vs))
      | none => (renderPromptBindFrom (i + 1) rest args).map (fun vs => zeroVal ty :: vs)

/-- Wire-argument binding for a prompt handler, starting at parameter 0. -/
def renderPromptBind (tys : List GoTy) (args : List (String × String)) :
    Except String (List GoVal) :=
  renderPromptBindFrom 0 tys args

/-- First returned value (`results[0]`), regardless of result arity —
    `renderPrompt` ignores a second (error) result entirely. -/
def retFirst : HandlerRet → GoVal
  | .one v => v
  | .two v _ => v

/-- `Server.renderPrompt` (prompt.go lines 49-96): bind arguments,
    invoke the handler, then wrap a string result as a single assistant
    message, pass a message-list result through, and reject any other
    result type. -/
def renderPrompt (p : Prompt) (args : List (String × String)) : POutcome (List PromptMsg) :=
  match renderPromptBind p.handler.params args with
  | .error e => .err e
  | .ok argVals =>
      match callGoFunc p.handler argVals with
      | .panic m => .panic m
      | .err e => .err e
      | .ok ret =>
          match retFirst ret with
          | .vStr s => .ok [{ role := "assistant", text := s }]
          | .vMsgs l => .ok l
          | v => .err ("invalid prompt handler return type: " ++ tyName (typeOf v))

/-- `handleGetPrompt` after params decoding (handlers.go lines 184-214):
    lookup, render, and pair the prompt's description with the rendered
    messages. -/
def handleGetPrompt (srv : Server) (name : String) (args : List (String × String)) :
    POutcome (String × List PromptMsg) :=
  match alookup name srv.prompts with
  | none => .err ("prompt not found: " ++ name)
  | some p =>
      match renderPrompt p args with
      | .panic m => .panic m
      | .err e => .err ("failed to render prompt: " ++ e)
      | .ok msgs => .ok (p.description, msgs)

/-! ## Session state machine (`Session.HandleRequest`, server.go) -/

/-- `protocol.RequestID`: an opaque string-or-integer identifier. -/
inductive RequestID where
  | str (s : String)
  | num (n : Int)
  deriving DecidableEq, Repr

/-- `protocol.InitializeRequestParams`. -/
structure InitializeRequestParams where
  protocolVersion : String
  capabilities : ClientCapabilities
  clientInfo : Impl
  deriving DecidableEq, Repr

/-- Decoded shape of a request's `params` blob: the model of the
    `json.RawMessage` each handler unmarshals into its own params type.
    `malformed` stands for a blob that fails to unmarshal. -/
inductive WireParams where
  | initP (p : InitializeRequestParams)
  | callToolP (name : String) (arguments : Option (List (String × GoVal)))
  | readResourceP (uri : String)
  | getPromptP (name : String) (args : List (String × String))
  | emptyP
  | malformed

/-- `json.Unmarshal` into `InitializeRequestParams`. -/
def decodeInitializeParams : WireParams → Option InitializeRequestParams
  | .initP p => some p
  | _ => none

/-- `json.Unmarshal` into `CallToolRequestParams`. -/
def decodeCallToolParams : WireParams → Option CallToolParams
  | .callToolP name args => some { name := name, arguments := args }
  | _ => none

/-- `json.Unmarshal` into `ReadResourceRequestParams` (the URI). -/
def decodeReadResourceParams : WireParams → Option String
  | .readResourceP uri => some uri
  | _ => none

/-- `json.Unmarshal` into `GetPromptRequestParams`. -/
def decodeGetPromptParams : WireParams → Option (String × List (String × String))
  | .getPromptP name args => some (name, args)
  | _ => none

/-- A JSON-RPC request as the session sees it. -/
structure Request where
  id : RequestID
  method : String
  params : WireParams

/-- `protocol.InitializeResult`. -/
structure InitializeResult where
  protocolVersion : String
  capabilities : ServerCapabilities
  serverInfo : Impl
  deriving DecidableEq, Repr

/-- Result payload of a successful response, one constructor per
    handled method. -/
inductive ResultVal where
  | initializeR (r : InitializeResult)
  | pingR
  | listToolsR (tools : List (String × String))
  | callToolR (r : CallToolResult)
  | listResourcesR (rs : List (String × String))
  | readResourceR (contents : List GoVal)
  | listPromptsR (ps : List (String × String))
  | getPromptR (description : String) (messages : List PromptMsg)
  deriving DecidableEq, Repr

/-- `protocol.JSONRPCResponse` (the `jsonrpc` tag is the constant
    `"2.0"` and is left implicit). -/
structure JSONRPCResponse where
  id : RequestID
  result : ResultVal
  deriving DecidableEq, Repr

/-- Mutable per-session state (`Session.initialized`, `capabilities`,
    `clientInfo`).  The `Closed` state of the spec has no counterpart in
    `Session.HandleRequest`; closing only cancels the context. -/
structure SessionState where
  initialized : Bool
  capabilities : ClientCapabilities
  clientInfo : Impl
  deriving DecidableEq, Repr

/-- A freshly created session (`NewSession`): zero-valued fields. -/
def newSessionState : SessionState :=
  { initialized := false
    capabilities := { sampling := false, roots := false }
    clientInfo := { name := "", version := "" } }

/-- `Session.handleInitialize` (server.go lines 152-175): on a decode
    failure the state is untouched; otherwise the client capabilities
    and info are recorded, the session becomes initialized, and the
    response carries the latest protocol version and the server's own
    capabilities and info. -/
def handleInitialize (srv : Server) (st : SessionState) (req : Request) :
    SessionState × POutcome JSONRPCResponse :=
  match decodeInitializeParams req.params with
  | none => (st, .err "invalid initialize params")
  | some p =>
      ({ initialized := true, capabilities := p.capabilities, clientInfo := p.clientInfo },
       .ok { id := req.id
             result := .initializeR
               { protocolVersion := LatestProtocolVersion
                 capabilities := srv.capabilities
                 serverInfo := srv.info } })

/-- `tools/list` payload (handlers.go lines 13-33). -/
def listToolsPayload (srv : Server) : List (String × String) :=
  srv.tools.map (fun p => (p.1, p.2.description))

/-- `resources/list` payload (handlers.go lines 107-128): URI and name
    both carry the pattern; the pair here is (pattern, description). -/
def listResourcesPayload (srv : Server) : List (String × String) :=
  srv.resources.map (fun p => (p.2.pattern, p.2.description))

/-- `prompts/list` payload (handlers.go lines 161-181). -/
def listPromptsPayload (srv : Server) : List (String × String) :=
  srv.prompts.map (fun p => (p.1, p.2.description))

/-- Post-handshake method router of `Session.HandleRequest` (server.go
    lines 110-128), reached only when the session is initialized and
    the method is not `initialize`. -/
def dispatchRequest (srv : Server) (st : SessionState) (req : Request) :
    SessionState × POutcome JSONRPCResponse :=
  if req.method = "ping" then
    (st, .ok { id := req.id, result := .pingR })
  else if req.method = "tools/list" then
    (st, .ok { id := req.id, result := .listToolsR (listToolsPayload srv) })
  else if req.method = "tools/call" then
    match decodeCallToolParams req.params with
    | none => (st, .err "invalid tool call params")
    | some p => (st, (handleCallTool srv p).map (fun r => { id := req.id, result := .callToolR r }))
  else if req.method = "resources/list" then
    (st, .ok { id := req.id, result := .listResourcesR (listResourcesPayload srv) })
  else if req.method = "resources/read" then
    match decodeReadResourceParams req.params with
    | none => (st, .err "invalid resource read params")
    | some uri =>
        (st, (handleReadResource srv uri).map (fun cs => { id := req.id, result := .readResourceR cs }))
  else if req.method = "prompts/list" then
    (st, .ok { id := req.id, result := .listPromptsR (listPromptsPayload srv) })
  else if req.method = "prompts/get" then
    match decodeGetPromptParams req.params with
    | none => (st, .err "invalid prompt get params")
    | some (name, args) =>
        (st, (handleGetPrompt srv name args).map
          (fun r => { id := req.id, result := .getPromptR r.1 r.2 }))
  else
    (st, .err ("unknown method: " ++ req.method))

/-- `Session.HandleRequest` (server.go lines 92-129): `initialize` is
    rejected when already initialized and handled otherwise; every other
    method requires the session to be initialized first. -/
def HandleRequest (srv : Server) (st : SessionState) (req : Request) :
    SessionState × POutcome JSONRPCResponse :=
  if req.method = "initialize" then
    if st.initialized then (st, .err "server already initialized")
    else handleInitialize srv st req
  else if st.initialized then dispatchRequest srv st req
  else (st, .err "server not initialized")

/-! ## Transport parse-error replies (`transport/`)

Each transport decodes an inbound unit into a JSON-RPC envelope and, on
a decode failure, writes a `protocol.JSONRPCError` with no recovered id
(the `ID` field stays the zero interface value and marshals as `null`).
The three reply constructors below are the envelopes each transport
builds at that point. -/

/-- `protocol.ErrorData`. -/
structure ErrorData where
  code : Int
  message : String
  data : String
  deriving DecidableEq, Repr

/-- A JSON-RPC error envelope with an optional id (`none` marshals as
    omitted/null). -/
structure JSONRPCErrorReply where
  id : Option RequestID
  error : ErrorData
  deriving DecidableEq, Repr

/-- Parse-error reply of the stdio transport: `StdioTransport.Start`
    calls `t.writeError(nil, 0, "Parse error", err)` (stdio.go lines
    56-61), passing the literal error code `0`. -/
def stdioParseErrorReply (decodeErr : String) : JSONRPCErrorReply :=
  { id := none, error := { code := 0, message := "Parse error", data := decodeErr } }

/-- Parse-error reply of the SSE transport: `SSETransport.handleRequest`
    calls `t.writeError(w, nil, -32700, "Parse error", err)` (sse.go
    lines 128-131). -/
def sseParseErrorReply (decodeErr : String) : JSONRPCErrorReply :=
  { id := none, error := { code := -32700, message := "Parse error", data := decodeErr } }

/-- Parse-error reply of the WebSocket transport:
    `t.writeError(conn, nil, -32700, "Parse error", err)`
    (websocket.go, `handleConnection`). -/
def wsParseErrorReply (decodeErr : String) : JSONRPCErrorReply :=
  { id := none, error := { code := -32700, message := "Parse error", data := decodeErr } }

/-! ## Concrete fixtures

Registered servers used by the theorems below, mirroring the handlers
the repository's own tests and examples register
(`server.AddTool("add", func(a, b int) int { return a + b }, …)`,
`AddResource("file://\x7bpath\x7d", …)`, `AddPrompt("greet", …)`). -/

/-- Handler `func(a, b int) int { return a + b }`. -/
def addHandler : Handler :=
  { params := [.tyInt, .tyInt],
    body := fun args => match args with
      | [.vInt a, .vInt b] => .one (.vInt (a + b))
      | _ => .one (.vInt 0) }

/-- The `add` tool as registered. -/
def addTool_entry : Tool :=
  { handler := addHandler, description := "Add two numbers", isAsync := false }

/-- Server with the `add` tool registered. -/
def srvAdd : Server :=
  { NewServer "calc" with tools := [("add", addTool_entry)] }

/-- Handler `func(b bool) bool { return b }`. -/
def boolHandler : Handler :=
  { params := [.tyBool],
    body := fun args => match args with
      | [.vBool b] => .one (.vBool b)
      | _ => .one (.vBool false) }

/-- Server with a one-bool-parameter tool registered. -/
def srvFlag : Server :=
  { NewServer "flags" with
      tools := [("flag", { handler := boolHandler, description := "Toggle", isAsync := false })] }

/-- Handler `func() (int, error) { return 7, nil }`. -/
def sevenHandler : Handler :=
  { params := [], body := fun _ => .two (.vInt 7) none }

/-- Server with the constant-7 tool registered. -/
def srvSeven : Server :=
  { NewServer "seven" with
      tools := [("seven", { handler := sevenHandler, description := "Constant", isAsync := false })] }

/-- Handler `func() (string, error) { return "", errors.New("boom") }`. -/
def boomHandler : Handler :=
  { params := [], body := fun _ => .two (.vStr "") (some "boom") }

/-- The failing tool as registered. -/
def boomTool_entry : Tool :=
  { handler := boomHandler, description := "Always fails", isAsync := false }

/-- Server with the failing tool registered. -/
def srvBoom : Server :=
  { NewServer "boom" with tools := [("boom", boomTool_entry)] }

/-- Handler `func(path string) string { return path }`. -/
def echoHandler : Handler :=
  { params := [.tyStr],
    body := fun args => match args with
      | [.vStr s] => .one (.vStr s)
      | _ => .one (.vStr "unexpected") }

/-- Resource registered under the scheme-less pattern `/files/⦃path⦄`. -/
def filesResource : Resource :=
  { handler := echoHandler, description := "Read file", pattern := "/files/\x7bpath\x7d" }

/-- Server with the `/files/⦃path⦄` resource registered. -/
def srvFiles : Server :=
  { NewServer "files" with resources := [("/files/\x7bpath\x7d", filesResource)] }

/-- Resource registered under `file://⦃path⦄`, as in the repository's
    file-server example. -/
def fileSchemeResource : Resource :=
  { handler := echoHandler, description := "Read file contents", pattern := "file://\x7bpath\x7d" }

/-- Server with the `file://⦃path⦄` resource registered. -/
def srvFileScheme : Server :=
  { NewServer "fs" with resources := [("file://\x7bpath\x7d", fileSchemeResource)] }

/-- Resource registered under `/d/⦃p⦄` (positive control for the
    matcher). -/
def docsResource : Resource :=
  { handler := echoHandler, description := "Read doc", pattern := "/d/\x7bp\x7d" }

/-- Server with the `/d/⦃p⦄` resource registered. -/
def srvDocs : Server :=
  { NewServer "docs" with resources := [("/d/\x7bp\x7d", docsResource)] }

/-- Resource handler `func() (string, error)` that always fails. -/
def failResource : Resource :=
  { handler := boomHandler, description := "Always fails", pattern := "/fail" }

/-- Server with the always-failing resource registered. -/
def srvFail : Server :=
  { NewServer "fail" with resources := [("/fail", failResource)] }

/-- Prompt handler `func(name string) string { return "Hello, " + name }`. -/
def greetHandler : Handler :=
  { params := [.tyStr],
    body := fun args => match args with
      | [.vStr s] => .one (.vStr ("Hello, " ++ s))
      | _ => .one (.vStr "?") }

/-- The greeting prompt as registered. -/
def greetPrompt : Prompt :=
  { handler := greetHandler, description := "Greeting prompt" }

/-- Server with the greeting prompt registered. -/
def srvGreet : Server :=
  { NewServer "prompts" with prompts := [("greet", greetPrompt)] }

/-- Client capabilities used by the handshake witnesses. -/
def cliCaps : ClientCapabilities := { sampling := true, roots := false }

/-- Client info used by the handshake witnesses. -/
def cliInfo : Impl := { name := "client", version := "1.0" }

/-- Well-formed initialize params. -/
def initParamsW : InitializeRequestParams :=
  { protocolVersion := "2024-11-05", capabilities := cliCaps, clientInfo := cliInfo }

/-- A well-formed initialize request. -/
def reqInitW : Request := { id := .num 1, method := "initialize", params := .initP initParamsW }

/-- A ping request. -/
def reqPingW : Request := { id := .num 2, method := "ping", params := .emptyP }

/-- An initialized session having recorded the witness client data. -/
def stInitW : SessionState :=
  { initialized := true, capabilities := cliCaps, clientInfo := cliInfo }

/-- Server with a tool, a resource and a prompt registered, for the
    duplicate-registration witness. -/
def srvDup : Server :=
  { NewServer "dup" with
      tools := [("add", addTool_entry)]
      resources := [("file://\x7bpath\x7d", fileSchemeResource)]
      prompts := [("greet", greetPrompt)] }

/-- A tools/call request against the bool tool with a string wire value. -/
def reqFlagW : Request :=
  { id := .num 3, method := "tools/call",
    params := .callToolP "flag" (some [("arg0", .vStr "true")]) }

/-! ## Helper lemmas -/

/-- With an empty argument map, the prompt binding loop fills every
    position with the parameter type's zero value and succeeds. -/
theorem renderPromptBindFrom_no_args (tys : List GoTy) :
    ∀ i : Nat, renderPromptBindFrom i tys [] = .ok (tys.map zeroVal) := by
  induction tys with
  | nil => intro i; rfl
  | cons ty rest ih =>
      intro i
      simp only [renderPromptBindFrom, alookup, ih (i + 1), Except.map, List.map]

/-- Every advertised prompt argument is marked required. -/
theorem promptArgsFrom_required (tys : List GoTy) :
    ∀ i : Nat, (promptArgsFrom i tys).all (fun a => a.required) = true := by
  induction tys with
  | nil => intro i; rfl
  | cons ty rest ih =>
      intro i
      simp only [promptArgsFrom, List.all_cons, ih (i + 1), Bool.and_true]

/-- The advertised prompt argument names are the synthetic `argN`
    sequence starting at the loop index. -/
theorem promptArgsFrom_names (tys : List GoTy) :
    ∀ i : Nat, (promptArgsFrom i tys).map (fun a => a.name)
      = (List.range' i tys.length).map (fun j => "arg" ++ toString j) := by
  induction tys with
  | nil => intro i; rfl
  | cons ty rest ih =>
      intro i
      simp only [promptArgsFrom, List.map, List.length_cons, List.range'_succ, ih (i + 1)]

/-! ## Claims -/

/-- C1: the spec claims `tools/call` on a two-int-parameter `add` tool
    with arguments `⦃"arg0":"3","arg1":"4"⦄` coerces each string to the
    declared parameter type and returns a result equivalent to 7, a
    failed decode yielding InvalidArgument.  The code does neither: the
    binding loop of `handleCallTool` assigns each wire value verbatim
    (`paramValue = argValue`), so `reflect.Call` receives two strings
    for int parameters and panics — no coercion, no InvalidArgument, no
    result.  The conjuncts show: binding passes the raw strings through,
    the call panics, the handler itself would produce 7 on properly
    coerced arguments, and the package's own `convertValue` (used for
    resources and prompts, but not here) would have decoded "3". -/
theorem C1_call_add_with_string_args_panics :
    bindToolArgs addHandler.params (some [("arg0", .vStr "3"), ("arg1", .vStr "4")])
      = .ok [.vStr "3", .vStr "4"]
    ∧ handleCallTool srvAdd
        { name := "add", arguments := some [("arg0", .vStr "3"), ("arg1", .vStr "4")] }
      = .panic "reflect: Call using string as type int"
    ∧ addHandler.body [.vInt 3, .vInt 4] = .one (.vInt 7)
    ∧ convertValue "3" .tyInt = .ok (.vInt 3) :=
  ⟨rfl, rfl, rfl, rfl⟩

/-- C2: the spec claims `resources/read` invokes the handler with the
    parameters extracted by the matcher (zero values only beyond the
    placeholder count).  The code extracts and converts the parameters
    under the placeholder *names* (`"path"`), but `readResource` reads
    them back under the synthetic keys `"paramN"`, so every extracted
    value is dropped and the handler receives zero values.  The
    conjuncts show: the matcher extracts `path = "x"`, the echo handler
    would return `"x"` if given it, yet reading yields `""`; a handler
    failure, by contrast, is surfaced as a genuine error exactly as
    claimed. -/
theorem C2_matched_params_not_passed_to_handler :
    matchResource srvFiles "/files/x" = .ok (filesResource, [("path", .vStr "x")])
    ∧ echoHandler.body [.vStr "x"] = .one (.vStr "x")
    ∧ readResource filesResource [("path", .vStr "x")] = .ok [.vStr ""]
    ∧ handleReadResource srvFiles "/files/x" = .ok [.vStr ""]
    ∧ readResource failResource [] = .err "boom"
    ∧ handleReadResource srvFail "/fail" = .err "failed to read resource: boom" :=
  ⟨rfl, rfl, rfl, rfl, rfl, rfl⟩

/-- C3 counterexample: with `file://⦃path⦄` registered, the URI
    `file://a/b.txt` does *not* match — `matchResource` anchors the
    compiled regex (its `file://` literal included) against only the
    path component `/b.txt` of the parsed URI — so matching falls
    through to the NotFound error instead of extracting
    `path = "a/b.txt"`. -/
theorem C3_counterexample_file_uri_not_matched :
    matchResource srvFileScheme "file://a/b.txt"
      = .error "no matching resource found for file://a/b.txt" :=
  rfl

/-- C3 amended: pattern `file://⦃path⦄` matches neither `file://a/b.txt`
    nor `dir://a/b.txt`, because the compiled regex is matched against
    the URI's path component (`/b.txt`) and each placeholder captures
    only a nonempty run of non-separator characters; a placeholder does
    extract such a run when the pattern has no scheme prefix
    (`/d/⦃p⦄` on `/d/abc` gives `p = "abc"`, and fails on `/d/abc/def`);
    a URI matching no registered pattern fails with the NotFound
    error. -/
theorem C3_match_is_against_path_component :
    matchResource srvFileScheme "dir://a/b.txt"
      = .error "no matching resource found for dir://a/b.txt"
    ∧ urlParsePath "file://a/b.txt" = "/b.txt"
    ∧ patMatch (splitPattern "file://\x7bpath\x7d") "/b.txt".data = none
    ∧ matchResourceParams srvDocs "/d/abc" = .ok [("p", .vStr "abc")]
    ∧ patMatch (splitPattern "/d/\x7bp\x7d") "/d/abc/def".data = none
    ∧ matchResource (NewServer "empty") "file://a/b.txt"
      = .error "no matching resource found for file://a/b.txt" :=
  ⟨rfl, rfl, rfl, rfl, rfl, rfl⟩

/-- C4: in the Uninitialized state, a decodable `initialize` request
    succeeds, RECORDS the client capabilities and info, sets the state
    to Initialized, and echoes the latest protocol version together
    with the server's own capabilities and info; every other method is
    rejected with the NotInitialized error, the state unchanged. -/
theorem C4_uninitialized_gating (srv : Server) (st : SessionState) (req : Request)
    (hst : st.initialized = false) :
    (∀ p : InitializeRequestParams,
      req.method = "initialize" → decodeInitializeParams req.params = some p →
      HandleRequest srv st req =
        ({ initialized := true, capabilities := p.capabilities, clientInfo := p.clientInfo },
         .ok { id := req.id
               result := .initializeR
                 { protocolVersion := LatestProtocolVersion
                   capabilities := srv.capabilities
                   serverInfo := srv.info } }))
    ∧ (req.method ≠ "initialize" →
        HandleRequest srv st req = (st, .err "server not initialized")) := by
  constructor
  · intro p hm hd
    simp [HandleRequest, hm, hst, handleInitialize, hd]
  · intro hm
    simp [HandleRequest, hm, hst]

/-- C4 witness: the gating theorem applied to a fresh session of a
    concrete server, once with a well-formed initialize request and once
    with a ping request. -/
theorem C4_uninitialized_gating_witness :
    HandleRequest (NewServer "calc") newSessionState reqInitW
      = ({ initialized := true, capabilities := cliCaps, clientInfo := cliInfo },
         .ok { id := .num 1
               result := .initializeR
                 { protocolVersion := LatestProtocolVersion
                   capabilities := (NewServer "calc").capabilities
                   serverInfo := (NewServer "calc").info } })
    ∧ HandleRequest (NewServer "calc") newSessionState reqPingW
      = (newSessionState, .err "server not initialized") := by
  have h1 := C4_uninitialized_gating (NewServer "calc") newSessionState reqInitW rfl
  have h2 := C4_uninitialized_gating (NewServer "calc") newSessionState reqPingW rfl
  exact ⟨h1.1 initParamsW rfl rfl, h2.2 (by decide)⟩

/-- C5: an `initialize` request on an already-initialized session fails
    with the AlreadyInitialized error, and the session state — recorded
    capabilities and client info included — is returned unchanged. -/
theorem C5_second_initialize_rejected (srv : Server) (st : SessionState) (req : Request)
    (hst : st.initialized = true) (hm : req.method = "initialize") :
    HandleRequest srv st req = (st, .err "server already initialized") := by
  simp [HandleRequest, hm, hst]

/-- C5 witness: a second initialize against an initialized session of a
    concrete server. -/
theorem C5_second_initialize_rejected_witness :
    HandleRequest (NewServer "calc") stInitW reqInitW
      = (stInitW, .err "server already initialized") :=
  C5_second_initialize_rejected (NewServer "calc") stInitW reqInitW rfl rfl

/-- C6 counterexample: a tool whose handler returns `(7, nil)` — value
    7 of Go type int, nil error — produces a payload whose content is
    the `reflect.Value.String()` placeholder `"<int Value>"`, not any
    rendering of the returned value 7, refuting the claim that the
    payload wraps the returned value whenever the error is nil. -/
theorem C6_counterexample_nonstring_value_not_wrapped :
    handleCallTool srvSeven { name := "seven", arguments := some [] }
      = .ok { content := [.plainString "<int Value>"], isError := false }
    ∧ ("<int Value>" : String) ≠ "7" :=
  ⟨rfl, by decide⟩

/-- C6 amended: when a tools/call reaches the handler, a non-nil error
    in a (value, error) pair yields a successful protocol response whose
    payload has `isError` set and whose content carries the error text;
    a nil error or a single-value return yields `isError` unset with the
    content carrying `reflect.Value.String()` of the returned value —
    the value itself exactly when it is a string, and a `"<T Value>"`
    placeholder otherwise. -/
theorem C6_handler_failure_is_flagged_payload (srv : Server) (p : CallToolParams)
    (tool : Tool) (args : List GoVal) (ret : HandlerRet)
    (hlook : alookup p.name srv.tools = some tool)
    (hbind : bindToolArgs tool.handler.params p.arguments = .ok args)
    (hcall : callGoFunc tool.handler args = .ok ret) :
    handleCallTool srv p = .ok (processToolResults ret)
    ∧ (∀ v e, ret = .two v (some e) →
        processToolResults ret = { content := [.textContent e], isError := true })
    ∧ (∀ v, ret = .two v none →
        processToolResults ret = { content := [.plainString (goValString v)], isError := false })
    ∧ (∀ v, ret = .one v →
        processToolResults ret = { content := [.plainString (goValString v)], isError := false }) := by
  refine ⟨?_, ?_, ?_, ?_⟩
  · simp [handleCallTool, hlook, hbind, hcall]
  · rintro v e rfl; rfl
  · rintro v rfl; rfl
  · rintro v rfl; rfl

/-- C6 witness: the failing tool `boom` produces a successful response
    flagged `isError` and carrying the failure text. -/
theorem C6_handler_failure_is_flagged_payload_witness :
    handleCallTool srvBoom { name := "boom", arguments := some [] }
      = .ok { content := [.textContent "boom"], isError := true } := by
  have h := C6_handler_failure_is_flagged_payload srvBoom
    { name := "boom", arguments := some [] } boomTool_entry []
    (.two (.vStr "") (some "boom")) rfl rfl rfl
  rw [h.1, h.2.1 _ _ rfl]

/-- C7: for each registry kind, registering a key that already exists
    fails with the DuplicateName error, returns the registry unchanged,
    and the original entry is still the one found by lookup. -/
theorem C7_duplicate_registration_rejected (s : Server) :
    (∀ (name : String) (t : Tool) (h : Handler) (d : String),
      alookup name s.tools = some t →
        addTool s name h d = (s, some ("tool " ++ name ++ " already exists"))
        ∧ addAsyncTool s name h d = (s, some ("tool " ++ name ++ " already exists"))
        ∧ alookup name (addTool s name h d).1.tools = some t)
    ∧ (∀ (pat : String) (r : Resource) (h : Handler) (d : String),
      alookup pat s.resources = some r →
        addResource s pat h d = (s, some ("resource " ++ pat ++ " already exists"))
        ∧ alookup pat (addResource s pat h d).1.resources = some r)
    ∧ (∀ (pname : String) (pr : Prompt) (h : Handler) (d : String),
      alookup pname s.prompts = some pr →
        addPrompt s pname h d = (s, some ("prompt " ++ pname ++ " already exists"))
        ∧ alookup pname (addPrompt s pname h d).1.prompts = some pr) := by
  refine ⟨?_, ?_, ?_⟩
  · intro name t h d hlook
    simp [addTool, addAsyncTool, hlook]
  · intro pat r h d hlook
    simp [addResource, hlook]
  · intro pname pr h d hlook
    simp [addPrompt, hlook]

/-- C7 witness: duplicate registrations of a tool, a resource and a
    prompt against a server that already holds each key. -/
theorem C7_duplicate_registration_rejected_witness :
    addTool srvDup "add" echoHandler "again" = (srvDup, some "tool add already exists")
    ∧ addResource srvDup "file://\x7bpath\x7d" echoHandler "again"
      = (srvDup, some "resource file://\x7bpath\x7d already exists")
    ∧ addPrompt srvDup "greet" echoHandler "again"
      = (srvDup, some "prompt greet already exists")
    ∧ alookup "add" (addTool srvDup "add" echoHandler "again").1.tools = some addTool_entry := by
  have h := C7_duplicate_registration_rejected srvDup
  have ht := h.1 "add" addTool_entry echoHandler "again" rfl
  have hr := h.2.1 "file://\x7bpath\x7d" fileSchemeResource echoHandler "again" rfl
  have hp := h.2.2 "greet" greetPrompt echoHandler "again" rfl
  exact ⟨ht.1, hr.1, hp.1, ht.2.2⟩

/-- C8: the spec claims no input can make a registry, engine or matcher
    operation abort the process.  A tools/call whose wire argument's
    dynamic type differs from the handler's declared parameter type
    reaches `reflect.Value.Call` unconverted, which panics — both at the
    engine level and through the full session router. -/
theorem C8_engine_panic_reachable :
    handleCallTool srvFlag { name := "flag", arguments := some [("arg0", .vStr "true")] }
      = .panic "reflect: Call using string as type bool"
    ∧ HandleRequest srvFlag stInitW reqFlagW
      = (stInitW, .panic "reflect: Call using string as type bool") :=
  ⟨rfl, rfl⟩

/-- C9: the spec claims every transport answers an undecodable inbound
    unit with error code -32700 and no recovered id.  The SSE and
    WebSocket transports do; the stdio transport passes the literal
    code 0 to its `writeError` call instead. -/
theorem C9_stdio_parse_error_code_is_zero :
    (stdioParseErrorReply "unexpected end of JSON input").error.code = 0
    ∧ (stdioParseErrorReply "unexpected end of JSON input").id = none
    ∧ (stdioParseErrorReply "unexpected end of JSON input").error.message = "Parse error"
    ∧ (sseParseErrorReply "unexpected end of JSON input").error.code = -32700
    ∧ (wsParseErrorReply "unexpected end of JSON input").error.code = -32700
    ∧ (stdioParseErrorReply "unexpected end of JSON input").error.code ≠ -32700 :=
  ⟨rfl, rfl, rfl, rfl, rfl, by decide⟩

/-- C10: prompts/get fills every handler parameter whose `"argN"` key is
    absent with the parameter type's zero value and proceeds without a
    missing-argument error, while the advertised descriptors name the
    arguments `arg0, arg1, …` and mark every one required; tools/call,
    by contrast, fails on the first absent `"argN"` key.  The final
    conjuncts run the registered greeting prompt with no arguments at
    all: it renders with the zero-value string. -/
theorem C10_prompt_absent_args_zero_filled :
    (∀ tys : List GoTy, renderPromptBind tys [] = .ok (tys.map zeroVal))
    ∧ (∀ h : Handler, (parsePromptTemplateArgs h).all (fun a => a.required) = true)
    ∧ (∀ h : Handler, (parsePromptTemplateArgs h).map (fun a => a.name)
        = (List.range h.params.length).map (fun j => "arg" ++ toString j))
    ∧ (∀ (ty : GoTy) (rest : List GoTy),
        bindToolArgs (ty :: rest) (some []) = .error "missing argument: arg0")
    ∧ renderPrompt greetPrompt [] = .ok [{ role := "assistant", text := "Hello, " }]
    ∧ handleGetPrompt srvGreet "greet" []
      = .ok ("Greeting prompt", [{ role := "assistant", text := "Hello, " }]) := by
  refine ⟨?_, ?_, ?_, ?_, rfl, rfl⟩
  · intro tys
    exact renderPromptBindFrom_no_args tys 0
  · intro h
    exact promptArgsFrom_required h.params 0
  · intro h
    rw [List.range_eq_range']
    exact promptArgsFrom_names h.params 0
  · intro ty rest
    rfl

end MCPGoSDK
